import Mathlib

set_option maxHeartbeats 1000000

/-!
Shallow embedding of the withdrawal orchestration implemented in
src/frontend/ts/routes/countdown.tsx.

The embedding models:
* the withdraw pipeline (the `withdraw` async function): the ordered
  cryptographic / network steps, the thrown error objects and the catch
  block that maps error codes to user-visible messages;
* the trigger logic of the component (the `withdrawStarted` latch, the
  timer `onExpire` callback, the render-time automatic trigger and the
  manual button click handler);
* the expiry-instant computation (the JavaScript Date mutations
  `setUTCHours(0,0,0,0)` and `setDate(getDate()+1)`), with an explicit
  timezone model, and the dev-only fixed-delay override.

External results (network fetches, cryptographic primitive outputs, the
relayer response) are supplied by an oracle structure `World`, so that the
control flow of the source is embedded exactly while the out-of-scope
primitives stay abstract.
-/

namespace Mixer

/-- Error codes used by countdown.tsx (imported there from ../errors).
Only their identity as distinct tags is relevant to the control flow. -/
inductive ErrorCodes where
  | INVALID_SIG
  | WITNESS_GEN_ERROR
  | INVALID_WITNESS
  | INVALID_PROOF
  | TX_FAILED
  | PRE_BROADCAST_CHECK_FAILED
  deriving DecidableEq, Repr

/-- A value thrown inside the try block of `withdraw`:
either the ethers contract-not-deployed error, a raw exception carrying no
recognized code (for example a rejected fetch), or an object carrying an
ErrorCodes code, as thrown by the source. -/
inductive Thrown where
  | contractNotDeployed
  | raw
  | code (c : ErrorCodes)
  deriving DecidableEq, Repr

/-- The JSON body returned by the relayer: either
`{result: {txHash}}` or `{error: {data: {name}}}`. -/
inductive RelayerResponse where
  | success (txHash : String)
  | error (name : String)
  deriving DecidableEq, Repr

/-- A stored deposit record, as read by countdown.tsx from ../storage
(`getFirstUnwithdrawn`): recipient address, deposit timestamp in epoch
milliseconds, and the withdrawal transaction hash once set. -/
structure DepositRecord where
  recipientAddress : String
  timestamp : Int
  withdrawalTxHash : Option String
  deriving DecidableEq, Repr

/-- Modelled from the spec: `updateWithdrawTxHash` lives in ../storage,
which is not part of the provided source; per the spec the deposit record
is mutated exactly once, by the orchestrator, to set withdrawalTxHash to
the transaction reference upon confirmed submission success. -/
def updateWithdrawTxHash (r : DepositRecord) (txHash : String) : DepositRecord :=
  { r with withdrawalTxHash := some txHash }

/-- The component-visible side effects of one `withdraw` invocation:
the `proofGenProgress`, `txHash` and `errorMsg` React state strings (all
initialised to the empty string by useState), plus an instrumentation flag
recording whether the JSON-RPC POST to /api was issued. -/
structure Effects where
  proofGenProgress : String
  txHash : String
  errorMsg : String
  relayerCalled : Bool
  deriving DecidableEq, Repr

/-- State-string values before `withdraw` touches anything. -/
def initialEffects : Effects :=
  { proofGenProgress := "", txHash := "", errorMsg := "", relayerCalled := false }

/-- Oracle for every external interaction of `withdraw`.  Boolean `Ok`
fields say whether the corresponding awaited call succeeds (a false value
means the call throws); the remaining fields are the results returned by
the cryptographic primitives and the relayer.  `genWitness` receives the
path elements and path index actually passed to it by the source and
returns none when witness generation throws; `checkWitness`,
`genProof`, `genPublicSignals` and `verifyProof` are the circuit and
snark primitives, as functions of the witness value. -/
structure World where
  connectorPresent : Bool
  providerOk : Bool
  mixerOk : Bool
  getLeavesOk : Bool
  pathElements : List Nat
  pathIndex : Nat
  elementIndexOf : Nat
  treePathOf : List Nat
  validSig : Bool
  fetchCircuitOk : Bool
  genWitness : List Nat → Nat → Option Nat
  checkWitness : Nat → Bool
  provingKeyOk : Bool
  verifyingKeyOk : Bool
  genProof : Nat → Nat
  genPublicSignals : Nat → List Nat
  verifyProof : Nat → List Nat → Bool
  relayerFetchOk : Bool
  response : RelayerResponse

/-- The body of the try block of `withdraw`, step by step in source order.
Returns the accumulated effects, the (possibly updated) deposit record and
the thrown value if any step threw.  The bindings `leafIndex` and
`identityPath` mirror the calls `tree.element_index(identityCommitment)`
and `tree.path(leafIndex)` in the source, whose results the source never
uses afterwards; `identityPathElements` and `identityPathIndex` mirror the
destructured result of `genPathElementsAndIndex`, which the source feeds
to `genWitness`. -/
def tryBody (w : World) (r : DepositRecord) (eff : Effects) :
    Effects × DepositRecord × Option Thrown :=
  if !w.mixerOk then (eff, r, some Thrown.contractNotDeployed) else
  let eff := { eff with proofGenProgress := "Downloading leaves..." }
  if !w.getLeavesOk then (eff, r, some Thrown.raw) else
  let identityPathElements := w.pathElements
  let identityPathIndex := w.pathIndex
  let leafIndex := w.elementIndexOf
  let identityPath := w.treePathOf
  if !w.validSig then (eff, r, some (Thrown.code ErrorCodes.INVALID_SIG)) else
  let eff := { eff with proofGenProgress := "Downloading circuit..." }
  if !w.fetchCircuitOk then (eff, r, some Thrown.raw) else
  match w.genWitness identityPathElements identityPathIndex with
  | none => (eff, r, some (Thrown.code ErrorCodes.WITNESS_GEN_ERROR))
  | some wit =>
  if !w.checkWitness wit then (eff, r, some (Thrown.code ErrorCodes.INVALID_WITNESS)) else
  let eff := { eff with proofGenProgress := "Downloading proving key..." }
  if !w.provingKeyOk then (eff, r, some Thrown.raw) else
  let eff := { eff with proofGenProgress := "Downloading verification key..." }
  if !w.verifyingKeyOk then (eff, r, some Thrown.raw) else
  let eff := { eff with proofGenProgress := "Generating proof..." }
  let proof := w.genProof wit
  let publicSignals := w.genPublicSignals wit
  if !w.verifyProof proof publicSignals then
    (eff, r, some (Thrown.code ErrorCodes.INVALID_PROOF)) else
  let eff := { eff with proofGenProgress := "Sending JSON-RPC call to the relayer...",
                        relayerCalled := true }
  if !w.relayerFetchOk then (eff, r, some Thrown.raw) else
  match w.response with
  | RelayerResponse.success h =>
      ({ eff with proofGenProgress := "", txHash := h }, updateWithdrawTxHash r h, none)
  | RelayerResponse.error name =>
      if name = "BACKEND_MIX_PROOF_PRE_BROADCAST_INVALID" then
        (eff, r, some (Thrown.code ErrorCodes.PRE_BROADCAST_CHECK_FAILED))
      else
        (eff, r, none)

/-- The catch block of `withdraw`: which thrown values produce a
`setErrorMsg` call, and with which message.  A raw error carrying none of
the recognized codes produces no message. -/
def errMsgFor : Thrown → Option String
  | Thrown.contractNotDeployed =>
      some "The mixer contract was not deployed to the expected address"
  | Thrown.raw => none
  | Thrown.code c =>
      match c with
      | ErrorCodes.WITNESS_GEN_ERROR => some "Could not generate witness."
      | ErrorCodes.INVALID_WITNESS => some "Invalid witness."
      | ErrorCodes.INVALID_PROOF => some "Invalid proof."
      | ErrorCodes.INVALID_SIG => some "Invalid signature."
      | ErrorCodes.TX_FAILED => some "The transaction failed."
      | ErrorCodes.PRE_BROADCAST_CHECK_FAILED => some "The pre-broadcast check failed"

/-- The `withdraw` function of countdown.tsx: the guard
`if (!context.connector) return`, the provider construction and balance
fetch that precede the try block, then the try body and the catch block. -/
def withdraw (w : World) (r : DepositRecord) : Effects × DepositRecord :=
  if !w.connectorPresent then (initialEffects, r)
  else if !w.providerOk then (initialEffects, r)
  else
    match tryBody w r initialEffects with
    | (eff, r2, none) => (eff, r2)
    | (eff, r2, some t) =>
        match errMsgFor t with
        | some m => ({ eff with errorMsg := m }, r2)
        | none => (eff, r2)

/-!  Trigger logic of the countdown component: the `withdrawStarted`
latch, the timer `onExpire` callback, the render-time automatic trigger
and the manual button click handler. -/

/-- The chain context returned by useWeb3Context: whether the context
object itself is present (truthy), its error field, and whether
`context.connector` is set. -/
structure Web3Context where
  present : Bool
  error : Option String
  connectorPresent : Bool
  deriving DecidableEq, Repr

/-- The useState flags of the countdown component that govern triggering,
plus an instrumentation counter of how many times `withdraw` has been
invoked in this session. -/
structure UIState where
  withdrawStarted : Bool
  countdownDone : Bool
  withdrawBtnClicked : Bool
  showAdvanced : Bool
  pipelineRuns : Nat
  deriving DecidableEq, Repr

/-- Initial component state: every flag false, no pipeline invocation. -/
def initUIState : UIState :=
  { withdrawStarted := false, countdownDone := false, withdrawBtnClicked := false,
    showAdvanced := false, pipelineRuns := 0 }

/-- The `onExpire` callback passed to useTimer: sets countdownDone if it
is not already set. -/
def onExpire (s : UIState) : UIState :=
  if !s.countdownDone then { s with countdownDone := true } else s

/-- The render-time automatic trigger: if `withdrawStarted` is unset,
the countdown is done, the context object is present, midnight was not
already over at first load, and the timer fields sum to zero, then set the
latch and invoke `withdraw`.  Note that the source tests truthiness of
`context`, not `context.error`. -/
def autoStep (ctx : Web3Context) (midnightOver timerZero : Bool) (s : UIState) : UIState :=
  if !s.withdrawStarted && s.countdownDone && ctx.present && !midnightOver && timerZero then
    { s with withdrawStarted := true, pipelineRuns := s.pipelineRuns + 1 }
  else s

/-- The onClick handler of withdrawBtn: record the click, collapse the
advanced panel, and if the latch is unset, set it and invoke `withdraw`. -/
def clickStep (s : UIState) : UIState :=
  let s1 := { s with withdrawBtnClicked := true }
  let s2 := if s1.showAdvanced then { s1 with showAdvanced := false } else s1
  if !s2.withdrawStarted then
    { s2 with withdrawStarted := true, pipelineRuns := s2.pipelineRuns + 1 }
  else s2

/-- One session event: the timer expiry callback, a render pass (with the
current value of the timer-at-zero test), or a manual button click. -/
inductive UIEvent where
  | expire
  | render (timerZero : Bool)
  | click
  deriving DecidableEq, Repr

/-- Apply one event to the component state. -/
def uiStep (ctx : Web3Context) (midnightOver : Bool) : UIEvent → UIState → UIState
  | UIEvent.expire, s => onExpire s
  | UIEvent.render t, s => autoStep ctx midnightOver t s
  | UIEvent.click, s => clickStep s

/-- Apply a sequence of session events in order. -/
def runUI (ctx : Web3Context) (midnightOver : Bool) : List UIEvent → UIState → UIState
  | [], s => s
  | e :: es, s => runUI ctx midnightOver es (uiStep ctx midnightOver e s)

/-!  Expiry-instant computation.  The source mutates a JavaScript Date:

  let expiryTimestamp = new Date(identityStored.timestamp)
  expiryTimestamp.setUTCHours(0, 0, 0, 0)
  expiryTimestamp.setDate(expiryTimestamp.getDate() + 1)

`setUTCHours(0,0,0,0)` truncates the instant to the start of its UTC day.
`setDate(getDate() + 1)` increments the LOCAL day-of-month while keeping
the local wall-clock time of day: per the ECMAScript MakeDay semantics
this moves the local wall-clock representation forward by exactly one
calendar day, so the resulting instant is obtained by adding one day to
the local wall-clock value and converting back to UTC with the offset in
force at the NEW local time.  The timezone of the machine is modelled as
a pair of offset functions (milliseconds to add to UTC to obtain local
wall-clock, and the offset used when mapping a local wall-clock value
back to UTC). -/

/-- Milliseconds in one day. -/
def dayMs : Int := 86400000

/-- A local timezone: offset (ms) as a function of the UTC instant, and
offset (ms) as a function of the local wall-clock value, used for the
conversion back to UTC. -/
structure Timezone where
  offsetOfUtc : Int → Int
  offsetOfLocal : Int → Int

/-- A machine running in UTC (offset zero). -/
def utcTz : Timezone := { offsetOfUtc := fun _ => 0, offsetOfLocal := fun _ => 0 }

/-- US Eastern time around the 2021 spring DST transition:
offset -5h before 2021-03-14T07:00:00Z (epoch ms 1615705200000) and -4h
after; the local-side threshold is 02:00 local standard time, epoch-ms
local value 1615687200000. -/
def usEastern2021 : Timezone :=
  { offsetOfUtc := fun t => if t < 1615705200000 then -18000000 else -14400000
    offsetOfLocal := fun l => if l < 1615687200000 then -18000000 else -14400000 }

/-- `setUTCHours(0,0,0,0)`: truncate an epoch-ms instant to the start of
its UTC day. -/
def setUTCMidnight (t : Int) : Int := t - t.emod dayMs

/-- `setDate(getDate()+1)`: advance the local wall-clock representation by
one calendar day and convert back to UTC using the offset at the new
local wall-clock value. -/
def addOneLocalDay (tz : Timezone) (t : Int) : Int :=
  let localT := t + tz.offsetOfUtc t
  let localNew := localT + dayMs
  localNew - tz.offsetOfLocal localNew

/-- The expiryTimestamp computed by the source from the stored deposit
timestamp, on a machine with timezone `tz`. -/
def expiryTimestamp (tz : Timezone) (depositTs : Int) : Int :=
  addOneLocalDay tz (setUTCMidnight depositTs)

/-- The expiry instant as the spec words it: the start (00:00:00 UTC) of
the UTC calendar day immediately following the deposit timestamp's UTC
day, independent of any timezone. -/
def specNextUtcMidnight (t : Int) : Int := setUTCMidnight t + dayMs

/-- The `midnightOver` flag: `firstLoadTime > expiryTimestamp`, comparing
epoch milliseconds. -/
def midnightOverFlag (tz : Timezone) (depositTs firstLoadTime : Int) : Bool :=
  decide (expiryTimestamp tz depositTs < firstLoadTime)

/-- The final expiry value used by the component: the midnight-mode value
unless the dev-only branch applies (`!endsAtMidnight && !midnightOver`),
in which case it is the render-time now plus `endsAfterSecs` seconds. -/
def computedExpiry (endsAtMidnight : Bool) (endsAfterSecs : Int) (tz : Timezone)
    (depositTs firstLoadTime nowAtRender : Int) : Int :=
  let e := expiryTimestamp tz depositTs
  if !endsAtMidnight && !midnightOverFlag tz depositTs firstLoadTime then
    nowAtRender + endsAfterSecs * 1000
  else e

/-!  Concrete fixtures used by witness and counterexample theorems. -/

/-- A concrete pending deposit record: deposited 2021-01-01T15:00:00Z,
not yet withdrawn. -/
def recordBase : DepositRecord :=
  { recipientAddress := "0xrecipient", timestamp := 1609513200000,
    withdrawalTxHash := none }

/-- A world in which every external call succeeds, every check passes and
the relayer accepts, answering with transaction hash 0xabc. -/
def allOkWorld : World :=
  { connectorPresent := true, providerOk := true, mixerOk := true,
    getLeavesOk := true, pathElements := [1, 2], pathIndex := 0,
    elementIndexOf := 0, treePathOf := [1, 2], validSig := true,
    fetchCircuitOk := true, genWitness := fun _ _ => some 7,
    checkWitness := fun _ => true, provingKeyOk := true,
    verifyingKeyOk := true, genProof := fun wit => wit + 1,
    genPublicSignals := fun wit => [wit], verifyProof := fun _ _ => true,
    relayerFetchOk := true, response := RelayerResponse.success "0xabc" }

/-- A world identical to `allOkWorld` except that `context.connector` is
absent. -/
def noConnectorWorld : World := { allOkWorld with connectorPresent := false }

/-- A chain context with no connection error. -/
def plainCtx : Web3Context := { present := true, error := none, connectorPresent := true }

/-- A chain context reporting an UNSUPPORTED_NETWORK connection error. -/
def errCtx : Web3Context :=
  { present := true, error := some "UNSUPPORTED_NETWORK", connectorPresent := true }

/-- Component state after the countdown has completed, before any
trigger. -/
def readyState : UIState := { initUIState with countdownDone := true }

/-!  Invariant lemmas about the trigger state machine. -/

/-- The latch invariant: at most one pipeline invocation so far, and none
at all while the latch is unset. -/
def latchInv (s : UIState) : Prop :=
  s.pipelineRuns ≤ 1 ∧ (s.withdrawStarted = false → s.pipelineRuns = 0)

theorem onExpire_latchInv (s : UIState) (h : latchInv s) : latchInv (onExpire s) := by
  unfold onExpire
  split_ifs
  · exact ⟨h.1, h.2⟩
  · exact h

theorem autoStep_latchInv (ctx : Web3Context) (mo t : Bool) (s : UIState)
    (h : latchInv s) : latchInv (autoStep ctx mo t s) := by
  unfold autoStep
  split_ifs with hc
  · simp only [Bool.and_eq_true, Bool.not_eq_true'] at hc
    have h0 : s.pipelineRuns = 0 := h.2 hc.1.1.1.1
    refine ⟨?_, ?_⟩
    · show s.pipelineRuns + 1 ≤ 1
      omega
    · intro hfalse
      exact absurd hfalse (by simp)
  · exact h

theorem clickStep_latchInv (s : UIState) (h : latchInv s) : latchInv (clickStep s) := by
  unfold clickStep
  dsimp only
  split_ifs with h1 h2 h3
  · simp only [Bool.not_eq_true'] at h2
    have h0 : s.pipelineRuns = 0 := h.2 h2
    refine ⟨?_, ?_⟩
    · show s.pipelineRuns + 1 ≤ 1
      omega
    · intro hfalse
      exact absurd hfalse (by simp)
  · exact ⟨h.1, fun hf => h.2 hf⟩
  · simp only [Bool.not_eq_true'] at h3
    have h0 : s.pipelineRuns = 0 := h.2 h3
    refine ⟨?_, ?_⟩
    · show s.pipelineRuns + 1 ≤ 1
      omega
    · intro hfalse
      exact absurd hfalse (by simp)
  · exact ⟨h.1, fun hf => h.2 hf⟩

theorem uiStep_latchInv (ctx : Web3Context) (mo : Bool) (e : UIEvent) (s : UIState)
    (h : latchInv s) : latchInv (uiStep ctx mo e s) := by
  cases e with
  | expire => exact onExpire_latchInv s h
  | render t => exact autoStep_latchInv ctx mo t s h
  | click => exact clickStep_latchInv s h

theorem runUI_latchInv (ctx : Web3Context) (mo : Bool) (evs : List UIEvent) (s : UIState)
    (h : latchInv s) : latchInv (runUI ctx mo evs s) := by
  induction evs generalizing s with
  | nil => exact h
  | cons e es ih => exact ih (uiStep ctx mo e s) (uiStep_latchInv ctx mo e s h)

/-- Once the latch is set, the expiry callback changes neither the latch
nor the run count. -/
theorem onExpire_frozen (s : UIState) (h : s.withdrawStarted = true) :
    (onExpire s).withdrawStarted = true ∧ (onExpire s).pipelineRuns = s.pipelineRuns := by
  unfold onExpire
  split_ifs <;> exact ⟨h, rfl⟩

/-- Once the latch is set, a render pass changes neither the latch nor
the run count. -/
theorem autoStep_frozen (ctx : Web3Context) (mo t : Bool) (s : UIState)
    (h : s.withdrawStarted = true) :
    (autoStep ctx mo t s).withdrawStarted = true ∧
    (autoStep ctx mo t s).pipelineRuns = s.pipelineRuns := by
  unfold autoStep
  split_ifs with hc
  · simp only [Bool.and_eq_true, Bool.not_eq_true'] at hc
    exact absurd h (by simp [hc.1.1.1.1])
  · exact ⟨h, rfl⟩

/-- Once the latch is set, a click changes neither the latch nor the run
count. -/
theorem clickStep_frozen (s : UIState) (h : s.withdrawStarted = true) :
    (clickStep s).withdrawStarted = true ∧
    (clickStep s).pipelineRuns = s.pipelineRuns := by
  unfold clickStep
  dsimp only
  split_ifs with h1 h2 h3
  · simp only [Bool.not_eq_true'] at h2
    exact absurd h (by simp [h2])
  · exact ⟨h, rfl⟩
  · simp only [Bool.not_eq_true'] at h3
    exact absurd h (by simp [h3])
  · exact ⟨h, rfl⟩

/-- Once the latch is set, no event changes the latch or starts another
pipeline run. -/
theorem uiStep_frozen (ctx : Web3Context) (mo : Bool) (e : UIEvent) (s : UIState)
    (h : s.withdrawStarted = true) :
    (uiStep ctx mo e s).withdrawStarted = true ∧
    (uiStep ctx mo e s).pipelineRuns = s.pipelineRuns := by
  cases e with
  | expire => exact onExpire_frozen s h
  | render t => exact autoStep_frozen ctx mo t s h
  | click => exact clickStep_frozen s h

theorem runUI_frozen (ctx : Web3Context) (mo : Bool) (evs : List UIEvent) (s : UIState)
    (h : s.withdrawStarted = true) :
    (runUI ctx mo evs s).withdrawStarted = true ∧
    (runUI ctx mo evs s).pipelineRuns = s.pipelineRuns := by
  induction evs generalizing s with
  | nil => exact ⟨h, rfl⟩
  | cons e es ih =>
      have hstep := uiStep_frozen ctx mo e s h
      have hrest := ih (uiStep ctx mo e s) hstep.1
      exact ⟨hrest.1, hrest.2.trans hstep.2⟩

/-- A click on an unstarted state sets the latch and invokes the pipeline
exactly once. -/
theorem clickStep_unstarted (s : UIState) (hs : s.withdrawStarted = false) :
    (clickStep s).withdrawStarted = true ∧
    (clickStep s).pipelineRuns = s.pipelineRuns + 1 := by
  unfold clickStep
  dsimp only
  split_ifs with h1 h2 h3
  · exact ⟨rfl, rfl⟩
  · simp [hs] at h2
  · exact ⟨rfl, rfl⟩
  · simp [hs] at h3

/-!  Structural lemmas about the withdraw pipeline and the store. -/

/-- The try body either leaves the deposit record untouched, or the
relayer answered with a success result and the record was updated with
that transaction hash (and nothing was thrown). -/
theorem tryBody_store_cases (w : World) (r : DepositRecord) (e : Effects) :
    (tryBody w r e).2.1 = r ∨
    ∃ s, w.response = RelayerResponse.success s ∧
      (tryBody w r e).2.1 = updateWithdrawTxHash r s ∧
      (tryBody w r e).2.2 = none := by
  cases h1 : w.mixerOk
  · left; simp [tryBody, h1]
  cases h2 : w.getLeavesOk
  · left; simp [tryBody, h1, h2]
  cases h3 : w.validSig
  · left; simp [tryBody, h1, h2, h3]
  cases h4 : w.fetchCircuitOk
  · left; simp [tryBody, h1, h2, h3, h4]
  cases hw : w.genWitness w.pathElements w.pathIndex
  · left; simp [tryBody, h1, h2, h3, h4, hw]
  case some wit =>
  cases h5 : w.checkWitness wit
  · left; simp [tryBody, h1, h2, h3, h4, hw, h5]
  cases h6 : w.provingKeyOk
  · left; simp [tryBody, h1, h2, h3, h4, hw, h5, h6]
  cases h7 : w.verifyingKeyOk
  · left; simp [tryBody, h1, h2, h3, h4, hw, h5, h6, h7]
  cases h8 : w.verifyProof (w.genProof wit) (w.genPublicSignals wit)
  · left; simp [tryBody, h1, h2, h3, h4, hw, h5, h6, h7, h8]
  cases h9 : w.relayerFetchOk
  · left; simp [tryBody, h1, h2, h3, h4, hw, h5, h6, h7, h8, h9]
  cases hresp : w.response with
  | success s =>
      right
      exact ⟨s, rfl,
        by simp [tryBody, h1, h2, h3, h4, hw, h5, h6, h7, h8, h9, hresp],
        by simp [tryBody, h1, h2, h3, h4, hw, h5, h6, h7, h8, h9, hresp]⟩
  | error name =>
      by_cases hname : name = "BACKEND_MIX_PROOF_PRE_BROADCAST_INVALID" <;>
        · left
          simp [tryBody, h1, h2, h3, h4, hw, h5, h6, h7, h8, h9, hresp, hname]

/-- `withdraw` returns either the unchanged record or whatever record the
try body produced. -/
theorem withdraw_store_cases (w : World) (r : DepositRecord) :
    (withdraw w r).2 = r ∨
    (withdraw w r).2 = (tryBody w r initialEffects).2.1 := by
  unfold withdraw
  cases h1 : w.connectorPresent
  · left; simp [h1]
  cases h2 : w.providerOk
  · left; simp [h1, h2]
  right
  rcases htb : tryBody w r initialEffects with ⟨eff, r2, topt⟩
  cases topt with
  | none => simp [h1, h2, htb]
  | some t => cases hm : errMsgFor t <;> simp [h1, h2, htb, hm]

/-- A world identical to `allOkWorld` except that the local proof
verification returns false. -/
def badProofWorld : World := { allOkWorld with verifyProof := fun _ _ => false }

/-- A world identical to `allOkWorld` except that the relayer answers
with the recognized pre-broadcast rejection. -/
def preBroadcastWorld : World :=
  { allOkWorld with
    response := RelayerResponse.error "BACKEND_MIX_PROOF_PRE_BROADCAST_INVALID" }

/-- C1: for every sequence of session triggers (expiry callback firings,
render passes and manual button clicks, in any order) starting from the
initial component state, at most one invocation of the withdrawal
pipeline is started: the withdrawStarted latch is set by whichever
trigger fires first and every later trigger is a no-op. -/
theorem latch_at_most_one_pipeline_run (ctx : Web3Context) (mo : Bool)
    (evs : List UIEvent) :
    (runUI ctx mo evs initUIState).pipelineRuns ≤ 1 :=
  (runUI_latchInv ctx mo evs initUIState
    ⟨by simp [initUIState], fun _ => by simp [initUIState]⟩).1

/-- C2: when the local proof verification (step 15) returns false in an
attempt that reached it, the attempt throws INVALID_PROOF, the JSON-RPC
submission to the relayer is never issued, the store is untouched, and
the surfaced message is the INVALID_PROOF one. -/
theorem invalid_proof_blocks_submission (w : World) (r : DepositRecord) (wit : Nat)
    (hconn : w.connectorPresent = true) (hprov : w.providerOk = true)
    (hmix : w.mixerOk = true) (hleaves : w.getLeavesOk = true)
    (hsig : w.validSig = true) (hcirc : w.fetchCircuitOk = true)
    (hwit : w.genWitness w.pathElements w.pathIndex = some wit)
    (hchk : w.checkWitness wit = true)
    (hpk : w.provingKeyOk = true) (hvk : w.verifyingKeyOk = true)
    (hvp : w.verifyProof (w.genProof wit) (w.genPublicSignals wit) = false) :
    (tryBody w r initialEffects).2.2 = some (Thrown.code ErrorCodes.INVALID_PROOF) ∧
    (tryBody w r initialEffects).1.relayerCalled = false ∧
    withdraw w r =
      ({ proofGenProgress := "Generating proof...", txHash := "",
         errorMsg := "Invalid proof.", relayerCalled := false }, r) := by
  refine ⟨?_, ?_, ?_⟩ <;>
    simp [withdraw, tryBody, errMsgFor, initialEffects,
          hconn, hprov, hmix, hleaves, hsig, hcirc, hwit, hchk, hpk, hvk, hvp]

/-- Witness for C2: in the concrete badProofWorld, verification fails and
the relayer is never contacted. -/
theorem invalid_proof_blocks_submission_witness :
    badProofWorld.verifyProof (badProofWorld.genProof 7) (badProofWorld.genPublicSignals 7)
      = false ∧
    (tryBody badProofWorld recordBase initialEffects).2.2
      = some (Thrown.code ErrorCodes.INVALID_PROOF) ∧
    (tryBody badProofWorld recordBase initialEffects).1.relayerCalled = false ∧
    withdraw badProofWorld recordBase =
      ({ proofGenProgress := "Generating proof...", txHash := "",
         errorMsg := "Invalid proof.", relayerCalled := false }, recordBase) :=
  ⟨rfl, invalid_proof_blocks_submission badProofWorld recordBase 7
    rfl rfl rfl rfl rfl rfl rfl rfl rfl rfl rfl⟩

/-- C4: when the relayer answers with a success result carrying a
transaction hash, the attempt succeeds (no error message) and the deposit
record is updated so that withdrawalTxHash is exactly that hash. -/
theorem success_response_updates_store (w : World) (r : DepositRecord) (wit : Nat)
    (h : String)
    (hconn : w.connectorPresent = true) (hprov : w.providerOk = true)
    (hmix : w.mixerOk = true) (hleaves : w.getLeavesOk = true)
    (hsig : w.validSig = true) (hcirc : w.fetchCircuitOk = true)
    (hwit : w.genWitness w.pathElements w.pathIndex = some wit)
    (hchk : w.checkWitness wit = true)
    (hpk : w.provingKeyOk = true) (hvk : w.verifyingKeyOk = true)
    (hvp : w.verifyProof (w.genProof wit) (w.genPublicSignals wit) = true)
    (hrf : w.relayerFetchOk = true)
    (hresp : w.response = RelayerResponse.success h) :
    (withdraw w r).2 = updateWithdrawTxHash r h ∧
    (withdraw w r).2.withdrawalTxHash = some h ∧
    (withdraw w r).1.txHash = h ∧
    (withdraw w r).1.errorMsg = "" := by
  refine ⟨?_, ?_, ?_, ?_⟩ <;>
    simp [withdraw, tryBody, errMsgFor, initialEffects, updateWithdrawTxHash,
          hconn, hprov, hmix, hleaves, hsig, hcirc, hwit, hchk, hpk, hvk, hvp, hrf, hresp]

/-- Witness for C4: in the concrete allOkWorld with relayer answer
0xabc, the stored record ends with withdrawalTxHash 0xabc. -/
theorem success_response_updates_store_witness :
    allOkWorld.response = RelayerResponse.success "0xabc" ∧
    (withdraw allOkWorld recordBase).2 = updateWithdrawTxHash recordBase "0xabc" ∧
    (withdraw allOkWorld recordBase).2.withdrawalTxHash = some "0xabc" ∧
    (withdraw allOkWorld recordBase).1.txHash = "0xabc" ∧
    (withdraw allOkWorld recordBase).1.errorMsg = "" :=
  ⟨rfl, success_response_updates_store allOkWorld recordBase 7 "0xabc"
    rfl rfl rfl rfl rfl rfl rfl rfl rfl rfl rfl rfl rfl⟩

/-- C5: on every failing attempt (the try body threw at some step, or
the relayer did not answer with a success result, including the
pre-broadcast rejection) the deposit record store is not mutated. -/
theorem failure_leaves_store_unchanged (w : World) (r : DepositRecord)
    (hfail : (∀ s, w.response ≠ RelayerResponse.success s) ∨
             (tryBody w r initialEffects).2.2 ≠ none) :
    (withdraw w r).2 = r ∧
    (withdraw w r).2.withdrawalTxHash = r.withdrawalTxHash := by
  rcases withdraw_store_cases w r with h | h
  · exact ⟨h, by rw [h]⟩
  · rcases tryBody_store_cases w r initialEffects with h2 | ⟨s, hresp, h2, hnone⟩
    · rw [h, h2]; exact ⟨rfl, rfl⟩
    · rcases hfail with hf | hf
      · exact absurd hresp (hf s)
      · exact absurd hnone hf

/-- Witness for C5: with the concrete pre-broadcast rejection response,
the record is returned unchanged. -/
theorem failure_leaves_store_unchanged_witness :
    (∀ s, preBroadcastWorld.response ≠ RelayerResponse.success s) ∧
    (withdraw preBroadcastWorld recordBase).2 = recordBase ∧
    (withdraw preBroadcastWorld recordBase).2.withdrawalTxHash
      = recordBase.withdrawalTxHash :=
  ⟨fun _ h => RelayerResponse.noConfusion h,
   (failure_leaves_store_unchanged preBroadcastWorld recordBase
      (Or.inl (fun _ h => RelayerResponse.noConfusion h))).1,
   (failure_leaves_store_unchanged preBroadcastWorld recordBase
      (Or.inl (fun _ h => RelayerResponse.noConfusion h))).2⟩

/-- A world in which the path finder and the tree object disagree about
the leaf index and path of the identity commitment, while everything else
succeeds. -/
def mismatchWorld : World :=
  { allOkWorld with pathIndex := 0, pathElements := [1, 2],
                    elementIndexOf := 5, treePathOf := [9] }

/-- C6 counterexample: a concrete run in which the path finder result
(index 0, elements [1,2]) and the tree-located result (index 5, path [9])
disagree, yet nothing is thrown, no error is surfaced and the attempt
proceeds all the way to a successful submission — the mismatch is
ignored, not treated as fatal. -/
theorem path_mismatch_not_fatal_cex :
    mismatchWorld.pathIndex ≠ mismatchWorld.elementIndexOf ∧
    mismatchWorld.pathElements ≠ mismatchWorld.treePathOf ∧
    (tryBody mismatchWorld recordBase initialEffects).2.2 = none ∧
    (withdraw mismatchWorld recordBase).1.errorMsg = "" ∧
    (withdraw mismatchWorld recordBase).2.withdrawalTxHash = some "0xabc" :=
  ⟨by decide, by decide, rfl, rfl, rfl⟩

/-- C6 amended: the pipeline computes the tree-located leaf index and
path but never compares them with the path finder result; the whole
outcome of `withdraw` is independent of the tree-located values. -/
theorem path_consistency_never_checked (w : World) (r : DepositRecord)
    (i : Nat) (p : List Nat) :
    withdraw { w with elementIndexOf := i, treePathOf := p } r = withdraw w r := rfl

/-- C7 counterexample: a concrete automatic (render-time) trigger fires
and starts the pipeline although the chain context reports an
UNSUPPORTED_NETWORK connection error. -/
theorem auto_trigger_ignores_connection_error_cex :
    errCtx.error = some "UNSUPPORTED_NETWORK" ∧
    readyState.withdrawStarted = false ∧
    (autoStep errCtx false true readyState).pipelineRuns = 1 ∧
    (autoStep errCtx false true readyState).withdrawStarted = true :=
  ⟨rfl, rfl, rfl, rfl⟩

/-- C7 amended: the automatic transition into Proving happens exactly
when the latch is unset, the countdown has completed, the context object
is present, midnight was not already past at first load and the timer
fields sum to zero; the connection-error signal of the context is not
consulted at all. -/
theorem auto_trigger_condition_exact (ctx : Web3Context) (e : Option String)
    (mo t : Bool) (s : UIState) :
    autoStep { ctx with error := e } mo t s = autoStep ctx mo t s ∧
    (autoStep ctx mo t s).pipelineRuns =
      (if (!s.withdrawStarted && s.countdownDone && ctx.present && !mo && t) = true
       then s.pipelineRuns + 1 else s.pipelineRuns) := by
  constructor
  · rfl
  · unfold autoStep
    split_ifs <;> rfl

/-- A world identical to `allOkWorld` except that the relayer answers
with a structured error whose code is not the recognized pre-broadcast
one. -/
def otherErrorWorld : World :=
  { allOkWorld with response := RelayerResponse.error "BACKEND_INTERNAL_ERROR" }

/-- C8 counterexample: a concrete structured error response with an
unrecognized code is silently dropped — the submission was sent, nothing
is thrown, no error message is surfaced and the attempt does not reach
any Failed outcome. -/
theorem unrecognized_relayer_error_silent_cex :
    otherErrorWorld.response = RelayerResponse.error "BACKEND_INTERNAL_ERROR" ∧
    (withdraw otherErrorWorld recordBase).1.relayerCalled = true ∧
    (withdraw otherErrorWorld recordBase).1.errorMsg = "" ∧
    (tryBody otherErrorWorld recordBase initialEffects).2.2 = none ∧
    (withdraw otherErrorWorld recordBase).2 = recordBase :=
  ⟨rfl, rfl, rfl, rfl, rfl⟩

/-- C8 amended: on a structured error response, only the recognized
pre-broadcast code throws PRE_BROADCAST_CHECK_FAILED and surfaces its
message; any other code produces no thrown value and no message (the
response is silently ignored); either way the store is untouched. -/
theorem relayer_error_response_mapping (w : World) (r : DepositRecord) (wit : Nat)
    (name : String)
    (hconn : w.connectorPresent = true) (hprov : w.providerOk = true)
    (hmix : w.mixerOk = true) (hleaves : w.getLeavesOk = true)
    (hsig : w.validSig = true) (hcirc : w.fetchCircuitOk = true)
    (hwit : w.genWitness w.pathElements w.pathIndex = some wit)
    (hchk : w.checkWitness wit = true)
    (hpk : w.provingKeyOk = true) (hvk : w.verifyingKeyOk = true)
    (hvp : w.verifyProof (w.genProof wit) (w.genPublicSignals wit) = true)
    (hrf : w.relayerFetchOk = true)
    (hresp : w.response = RelayerResponse.error name) :
    (if name = "BACKEND_MIX_PROOF_PRE_BROADCAST_INVALID" then
      (tryBody w r initialEffects).2.2
          = some (Thrown.code ErrorCodes.PRE_BROADCAST_CHECK_FAILED) ∧
      (withdraw w r).1.errorMsg = "The pre-broadcast check failed"
     else
      (tryBody w r initialEffects).2.2 = none ∧
      (withdraw w r).1.errorMsg = "") ∧
    (withdraw w r).2 = r := by
  by_cases hname : name = "BACKEND_MIX_PROOF_PRE_BROADCAST_INVALID" <;>
    refine ⟨?_, ?_⟩ <;>
    simp [withdraw, tryBody, errMsgFor, initialEffects,
          hconn, hprov, hmix, hleaves, hsig, hcirc, hwit, hchk, hpk, hvk, hvp,
          hrf, hresp, hname]

/-- Witness for C8: instantiated at the concrete unrecognized code
BACKEND_INTERNAL_ERROR. -/
theorem relayer_error_response_mapping_witness :
    otherErrorWorld.response = RelayerResponse.error "BACKEND_INTERNAL_ERROR" ∧
    ((if "BACKEND_INTERNAL_ERROR" = "BACKEND_MIX_PROOF_PRE_BROADCAST_INVALID" then
        (tryBody otherErrorWorld recordBase initialEffects).2.2
            = some (Thrown.code ErrorCodes.PRE_BROADCAST_CHECK_FAILED) ∧
        (withdraw otherErrorWorld recordBase).1.errorMsg
            = "The pre-broadcast check failed"
      else
        (tryBody otherErrorWorld recordBase initialEffects).2.2 = none ∧
        (withdraw otherErrorWorld recordBase).1.errorMsg = "") ∧
     (withdraw otherErrorWorld recordBase).2 = recordBase) :=
  ⟨rfl, relayer_error_response_mapping otherErrorWorld recordBase 7
    "BACKEND_INTERNAL_ERROR" rfl rfl rfl rfl rfl rfl rfl rfl rfl rfl rfl rfl rfl⟩

/-- C9: when the first-observed instant is already past the midnight
boundary, the already-past classification takes precedence: the dev-only
fixed-delay branch is not taken for any configuration, and the expiry
value stays the midnight-mode instant. -/
theorem fixed_delay_only_when_not_past_midnight (endsAtMidnight : Bool)
    (endsAfterSecs : Int) (tz : Timezone) (depositTs firstLoadTime nowAtRender : Int)
    (h : expiryTimestamp tz depositTs < firstLoadTime) :
    midnightOverFlag tz depositTs firstLoadTime = true ∧
    computedExpiry endsAtMidnight endsAfterSecs tz depositTs firstLoadTime nowAtRender =
      expiryTimestamp tz depositTs := by
  have hm : midnightOverFlag tz depositTs firstLoadTime = true := by
    simp [midnightOverFlag, h]
  exact ⟨hm, by simp [computedExpiry, hm]⟩

/-- Witness for C9: a deposit at epoch zero with first load after the
following UTC midnight keeps the midnight-mode expiry even in dev
configuration. -/
theorem fixed_delay_only_when_not_past_midnight_witness :
    expiryTimestamp utcTz 0 < 86400001 ∧
    midnightOverFlag utcTz 0 86400001 = true ∧
    computedExpiry false 30 utcTz 0 86400001 12345 = expiryTimestamp utcTz 0 :=
  ⟨by decide,
   (fixed_delay_only_when_not_past_midnight false 30 utcTz 0 86400001 12345 (by decide)).1,
   (fixed_delay_only_when_not_past_midnight false 30 utcTz 0 86400001 12345 (by decide)).2⟩

/-- C3 (code bug): the midnight-mode expiry instant is timezone
dependent.  On a UTC machine the computed expiry for the deposit
timestamp 2021-03-14T12:00:00Z (epoch ms 1615723200000) is the start of
the following UTC day, as the claim states; but on a machine in US
Eastern time, whose DST transition falls between the deposit's UTC
midnight and the next one, `setDate(getDate()+1)` adds one LOCAL calendar
day and the computed expiry is 2021-03-14T23:00:00Z (1615762800000), one
hour before the following UTC midnight (1615766400000). -/
theorem midnight_expiry_timezone_dependent :
    expiryTimestamp utcTz 1615723200000 = specNextUtcMidnight 1615723200000 ∧
    expiryTimestamp usEastern2021 1615723200000 = 1615762800000 ∧
    expiryTimestamp usEastern2021 1615723200000 ≠ specNextUtcMidnight 1615723200000 :=
  ⟨by decide, by decide, by decide⟩

/-- C10: if the chain context has no connector when the button is
clicked, the click sets the one-shot latch and invokes `withdraw`, but
`withdraw` returns immediately with no progress, no error message, no
relayer call and no store change; afterwards no event of the session can
ever start another pipeline invocation. -/
theorem no_connector_click_latches_without_outcome (w : World) (r : DepositRecord)
    (ctx : Web3Context) (mo : Bool) (s : UIState)
    (hconn : w.connectorPresent = false) (hs : s.withdrawStarted = false) :
    (clickStep s).withdrawStarted = true ∧
    (clickStep s).pipelineRuns = s.pipelineRuns + 1 ∧
    withdraw w r = (initialEffects, r) ∧
    ∀ evs, (runUI ctx mo evs (clickStep s)).pipelineRuns = (clickStep s).pipelineRuns ∧
           (runUI ctx mo evs (clickStep s)).withdrawStarted = true := by
  have hclick := clickStep_unstarted s hs
  refine ⟨hclick.1, hclick.2, ?_, ?_⟩
  · unfold withdraw
    simp [hconn]
  · intro evs
    have hfz := runUI_frozen ctx mo evs (clickStep s) hclick.1
    exact ⟨hfz.2, hfz.1⟩

/-- Witness for C10: concrete click in the initial state with a
connector-less world; a later expiry, render and click add no pipeline
run. -/
theorem no_connector_click_latches_without_outcome_witness :
    noConnectorWorld.connectorPresent = false ∧
    initUIState.withdrawStarted = false ∧
    (clickStep initUIState).withdrawStarted = true ∧
    (clickStep initUIState).pipelineRuns = initUIState.pipelineRuns + 1 ∧
    withdraw noConnectorWorld recordBase = (initialEffects, recordBase) ∧
    (runUI plainCtx false [UIEvent.expire, UIEvent.render true, UIEvent.click]
        (clickStep initUIState)).pipelineRuns = (clickStep initUIState).pipelineRuns := by
  have T := no_connector_click_latches_without_outcome noConnectorWorld recordBase
    plainCtx false initUIState rfl rfl
  exact ⟨rfl, rfl, T.1, T.2.1, T.2.2.1,
    (T.2.2.2 [UIEvent.expire, UIEvent.render true, UIEvent.click]).1⟩

end Mixer
